import Mathlib

/-!
Shallow embedding of the event-hunter frontend logic
(src/event-hunter/src/EventDiscoveryForm.tsx): the stream classifier and
state transitions of the WebSocket message handler in connectWebSocket,
and the query composer and submission gate in handleSubmit.
-/

/-- Checks whether the first character list occurs at the head of the
second (character-by-character comparison, as a boolean). -/
def leadsChars : List Char → List Char → Bool
  | [], _ => true
  | _ :: _, [] => false
  | a :: as, b :: bs => a == b && leadsChars as bs

/-- Checks whether the first character list occurs contiguously anywhere
inside the second. -/
def hasSubChars (pat : List Char) : List Char → Bool
  | [] => leadsChars pat []
  | b :: bs => leadsChars pat (b :: bs) || hasSubChars pat bs

/-- Model of the JavaScript expression s.includes(pat): substring
containment on the underlying character sequences. -/
def strIncludes (s pat : String) : Bool :=
  hasSubChars pat.data s.data

/-- UI state bag of EventDiscoveryForm: the four useState cells
isConnected, isLoading, result, error. -/
structure UIState where
  isConnected : Bool
  isLoading : Bool
  result : String
  error : String
deriving Repr, DecidableEq

/-- Inbound frames of the wire protocol, a tagged union over the type
field: start, stream with content, complete, error with an optional
message. -/
inductive InboundEvent where
  | start : InboundEvent
  | stream (content : String) : InboundEvent
  | complete : InboundEvent
  | error (message : Option String) : InboundEvent
deriving Repr, DecidableEq

/-- Embedding of the isToolCallContent test in connectWebSocket, line 72:
the fragment contains any of the five literal noise markers. -/
def isToolCallContent (content : String) : Bool :=
  strIncludes content "Tool Calls:" ||
  strIncludes content "call_" ||
  strIncludes content "===" ||
  strIncludes content "Agent" ||
  strIncludes content "Running"

/-- Embedding of the isFinalResponse test in connectWebSocket, line 78:
the fragment contains a final-answer marker, or is long and free of
noise markers. -/
def isFinalResponse (content : String) : Bool :=
  strIncludes content "**Event Name**:" ||
  strIncludes content "## " ||
  (decide (content.length > 100) && !isToolCallContent content)

/-- Model of the JavaScript expression m || d on an optional string: the
empty string is falsy in JavaScript, so both a missing and an empty
message fall through to the default. -/
def orDefault (m : Option String) (d : String) : String :=
  match m with
  | some msg => if msg = "" then d else msg
  | none => d

/-- One transition of the onmessage handler of connectWebSocket
(lines 64 to 91), folding one inbound frame into the UI state. -/
def step (s : UIState) (e : InboundEvent) : UIState :=
  match e with
  | InboundEvent.start => { s with isLoading := true, result := "" }
  | InboundEvent.stream content =>
      if isFinalResponse content then { s with result := content } else s
  | InboundEvent.complete => { s with isLoading := false }
  | InboundEvent.error message =>
      { s with isLoading := false, error := orDefault message "An error occurred" }

/-- Folds a sequence of inbound frames into a UI state, one step per
frame, in arrival order. -/
def foldEvents (s : UIState) (es : List InboundEvent) : UIState :=
  es.foldl step s

/-- A calendar date as rendered by the form; the code stores JavaScript
Date values and renders them with format(d, "MMMM d, yyyy"). -/
structure FormDate where
  year : Nat
  month : Nat
  day : Nat
deriving Repr, DecidableEq

/-- English month name used by the MMMM pattern of date-fns format. -/
def monthName : Nat → String
  | 1 => "January"
  | 2 => "February"
  | 3 => "March"
  | 4 => "April"
  | 5 => "May"
  | 6 => "June"
  | 7 => "July"
  | 8 => "August"
  | 9 => "September"
  | 10 => "October"
  | 11 => "November"
  | 12 => "December"
  | _ => ""

/-- Embedding of format(d, "MMMM d, yyyy") from date-fns as used in
handleSubmit: month name, day without padding, comma, year. -/
def formatDate (d : FormDate) : String :=
  monthName d.month ++ " " ++ toString d.day ++ ", " ++ toString d.year

/-- The dateRange form field: from may be undefined, to is optional. -/
structure DateRange where
  fromDate : Option FormDate
  toDate : Option FormDate
deriving Repr, DecidableEq

/-- The EventFormData interface of the form component. -/
structure EventFormData where
  location : String
  dateRange : Option DateRange
  vertical : String
  companies : String
  additionalInfo : String
deriving Repr, DecidableEq

/-- Embedding of the dateRangeText conditional chain of handleSubmit
(lines 119 to 123): both dates present, only from present, neither. -/
def dateRangeText (fd : EventFormData) : String :=
  match fd.dateRange with
  | some dr =>
    match dr.fromDate, dr.toDate with
    | some f, some t => "from " ++ formatDate f ++ " to " ++ formatDate t
    | some f, none => "starting from " ++ formatDate f
    | none, _ => "upcoming"
  | none => "upcoming"

/-- Embedding of the query template literal of handleSubmit
(lines 125 to 129); the two trailing clauses are guarded by JavaScript
truthiness of the string fields, which for strings means nonemptiness. -/
def buildQuery (fd : EventFormData) : String :=
  "Find " ++ fd.vertical ++ " events in " ++ fd.location ++ " " ++ dateRangeText fd ++ "." ++
  (if fd.companies = "" then ""
   else " Focus on events where these companies might be involved: " ++ fd.companies ++ ".") ++
  (if fd.additionalInfo = "" then ""
   else " Additional requirements: " ++ fd.additionalInfo)

/-- The outbound message payload sent over the channel. -/
structure QueryRequest where
  query : String
deriving Repr, DecidableEq

/-- Embedding of handleSubmit (lines 113 to 132): when disconnected or
already loading it returns without sending; otherwise it sends the
composed query. -/
def handleSubmit (s : UIState) (fd : EventFormData) : Option QueryRequest :=
  if !s.isConnected || s.isLoading then none
  else some { query := buildQuery fd }

-- Helper lemmas about substring containment.

/-- A character list occurs at the head of anything it is prepended to. -/
theorem leadsChars_append (p l : List Char) : leadsChars p (p ++ l) = true := by
  induction p with
  | nil => rfl
  | cons a as ih => simp [leadsChars, ih]

/-- Occurring at the head is a special case of occurring inside. -/
theorem hasSubChars_of_leads (p l : List Char) (h : leadsChars p l = true) :
    hasSubChars p l = true := by
  cases l with
  | nil => exact h
  | cons b bs => simp [hasSubChars, h]

/-- A string contains any of its own leading segments: strIncludes holds
of q inside q ++ t. -/
theorem strIncludes_append_left (q t : String) : strIncludes (q ++ t) q = true := by
  have hd : (q ++ t).data = q.data ++ t.data := String.data_append q t
  unfold strIncludes
  rw [hd]
  exact hasSubChars_of_leads _ _ (leadsChars_append _ _)

-- Claim theorems.

set_option maxRecDepth 16384

/-- C1: every stream fragment containing the substring
"**Event Name**:" or the substring "## " is accepted by the classifier
and replaces the displayed result, regardless of length and of noise
markers. -/
theorem c1_marker_fragments_accepted (s : UIState) (c : String)
    (h : strIncludes c "**Event Name**:" = true ∨ strIncludes c "## " = true) :
    isFinalResponse c = true ∧
    step s (InboundEvent.stream c) = { s with result := c } := by
  have hf : isFinalResponse c = true := by
    unfold isFinalResponse
    rcases h with h1 | h2
    · simp [h1]
    · simp [h2]
  exact ⟨hf, by simp [step, hf]⟩

/-- C1 witness: the fragment "Tool Calls: **Event Name**: Foo" is
accepted even though it carries a noise marker. -/
theorem c1_marker_fragments_accepted_witness :
    isFinalResponse "Tool Calls: **Event Name**: Foo" = true ∧
    step { isConnected := true, isLoading := true, result := "old", error := "" }
      (InboundEvent.stream "Tool Calls: **Event Name**: Foo") =
      { isConnected := true, isLoading := true,
        result := "Tool Calls: **Event Name**: Foo", error := "" } :=
  c1_marker_fragments_accepted
    { isConnected := true, isLoading := true, result := "old", error := "" }
    "Tool Calls: **Event Name**: Foo" (Or.inl (by decide))

/-- C2: every fragment longer than 100 characters with none of the five
noise markers is accepted, and the displayed result becomes exactly that
fragment, replacing whatever was displayed before. -/
theorem c2_long_clean_fragments_accepted (s : UIState) (c : String)
    (hlen : c.length > 100) (hnoise : isToolCallContent c = false) :
    isFinalResponse c = true ∧
    step s (InboundEvent.stream c) = { s with result := c } := by
  have hf : isFinalResponse c = true := by
    unfold isFinalResponse
    simp [hnoise, hlen]
  exact ⟨hf, by simp [step, hf]⟩

/-- C2 witness: a 101-character fragment of plain text replaces a
previously displayed result. -/
theorem c2_long_clean_fragments_accepted_witness :
    (String.mk (List.replicate 101 'a')).length > 100 ∧
    isToolCallContent (String.mk (List.replicate 101 'a')) = false ∧
    step { isConnected := true, isLoading := true, result := "old", error := "" }
      (InboundEvent.stream (String.mk (List.replicate 101 'a'))) =
      { isConnected := true, isLoading := true,
        result := String.mk (List.replicate 101 'a'), error := "" } :=
  ⟨by decide, by decide,
    (c2_long_clean_fragments_accepted
      { isConnected := true, isLoading := true, result := "old", error := "" }
      (String.mk (List.replicate 101 'a')) (by decide) (by decide)).2⟩

/-- C3: every fragment of length at most 100 containing neither
"**Event Name**:" nor "## " is discarded and the state, in particular
the displayed result, is unchanged. -/
theorem c3_short_fragments_discarded (s : UIState) (c : String)
    (hlen : c.length ≤ 100)
    (hev : strIncludes c "**Event Name**:" = false)
    (hhd : strIncludes c "## " = false) :
    isFinalResponse c = false ∧ step s (InboundEvent.stream c) = s := by
  have hf : isFinalResponse c = false := by
    unfold isFinalResponse
    simp [hev, hhd, Nat.not_lt.mpr hlen]
  exact ⟨hf, by simp [step, hf]⟩

/-- C3 witness: the 18-character fragment "Tool Calls: call_1" is
discarded even though it carries noise markers. -/
theorem c3_short_fragments_discarded_witness :
    ("Tool Calls: call_1".length ≤ 100 ∧
     strIncludes "Tool Calls: call_1" "**Event Name**:" = false ∧
     strIncludes "Tool Calls: call_1" "## " = false) ∧
    step { isConnected := true, isLoading := true, result := "old", error := "" }
      (InboundEvent.stream "Tool Calls: call_1") =
      { isConnected := true, isLoading := true, result := "old", error := "" } :=
  ⟨⟨by decide, by decide, by decide⟩,
    (c3_short_fragments_discarded
      { isConnected := true, isLoading := true, result := "old", error := "" }
      "Tool Calls: call_1" (by decide) (by decide) (by decide)).2⟩

/-- C4: the composed query for the Berlin Fintech example is the exact
expected string, and each optional clause is omitted whenever its form
field is empty. -/
theorem c4_query_roundtrip :
    buildQuery
      { location := "Berlin",
        dateRange := some { fromDate := some ⟨2025, 3, 1⟩, toDate := some ⟨2025, 3, 5⟩ },
        vertical := "Fintech", companies := "Stripe", additionalInfo := "CFP open" } =
      "Find Fintech events in Berlin from March 1, 2025 to March 5, 2025. Focus on events where these companies might be involved: Stripe. Additional requirements: CFP open" ∧
    (∀ fd : EventFormData, fd.companies = "" →
      buildQuery fd =
        "Find " ++ fd.vertical ++ " events in " ++ fd.location ++ " " ++ dateRangeText fd ++ "." ++
        (if fd.additionalInfo = "" then ""
         else " Additional requirements: " ++ fd.additionalInfo)) ∧
    (∀ fd : EventFormData, fd.additionalInfo = "" →
      buildQuery fd =
        "Find " ++ fd.vertical ++ " events in " ++ fd.location ++ " " ++ dateRangeText fd ++ "." ++
        (if fd.companies = "" then ""
         else " Focus on events where these companies might be involved: " ++ fd.companies ++ ".")) := by
  refine ⟨by decide, ?_, ?_⟩
  · intro fd h
    simp [buildQuery, h]
  · intro fd h
    simp [buildQuery, h]

/-- C4 witness: with both optional fields empty neither clause is
appended. -/
theorem c4_query_roundtrip_witness :
    buildQuery
      { location := "Berlin", dateRange := none, vertical := "Fintech",
        companies := "", additionalInfo := "" } =
      "Find Fintech events in Berlin upcoming." := by
  have h := c4_query_roundtrip.2.1
    { location := "Berlin", dateRange := none, vertical := "Fintech",
      companies := "", additionalInfo := "" } rfl
  simpa using h

/-- C5: the date clause is a three-way case split on the presence of the
from and to dates, dates render as month name, day, year, and the
concrete June 10 example composes with no trailing clauses. -/
theorem c5_date_clause :
    (∀ (fd : EventFormData) (dr : DateRange) (f t : FormDate),
      fd.dateRange = some dr → dr.fromDate = some f → dr.toDate = some t →
      dateRangeText fd = "from " ++ formatDate f ++ " to " ++ formatDate t) ∧
    (∀ (fd : EventFormData) (dr : DateRange) (f : FormDate),
      fd.dateRange = some dr → dr.fromDate = some f → dr.toDate = none →
      dateRangeText fd = "starting from " ++ formatDate f) ∧
    (∀ fd : EventFormData,
      (fd.dateRange = none ∨ ∃ dr : DateRange, fd.dateRange = some dr ∧ dr.fromDate = none) →
      dateRangeText fd = "upcoming") ∧
    buildQuery
      { location := "Austin",
        dateRange := some { fromDate := some ⟨2025, 6, 10⟩, toDate := none },
        vertical := "Biotech", companies := "", additionalInfo := "" } =
      "Find Biotech events in Austin starting from June 10, 2025." := by
  refine ⟨?_, ?_, ?_, by decide⟩
  · intro fd dr f t hdr hf ht
    simp [dateRangeText, hdr, hf, ht]
  · intro fd dr f hdr hf ht
    simp [dateRangeText, hdr, hf, ht]
  · intro fd h
    rcases h with h | ⟨dr, hdr, hf⟩
    · simp [dateRangeText, h]
    · simp [dateRangeText, hdr, hf]

/-- C5 witness: both dates present renders the from-to clause with dates
in month-day-year form. -/
theorem c5_date_clause_witness :
    dateRangeText
      { location := "X",
        dateRange := some { fromDate := some ⟨2025, 3, 1⟩, toDate := some ⟨2025, 3, 5⟩ },
        vertical := "V", companies := "", additionalInfo := "" } =
      "from March 1, 2025 to March 5, 2025" := by
  have h := c5_date_clause.1
    { location := "X",
      dateRange := some { fromDate := some ⟨2025, 3, 1⟩, toDate := some ⟨2025, 3, 5⟩ },
      vertical := "V", companies := "", additionalInfo := "" }
    { fromDate := some ⟨2025, 3, 1⟩, toDate := some ⟨2025, 3, 5⟩ }
    ⟨2025, 3, 1⟩ ⟨2025, 3, 5⟩ rfl rfl rfl
  simpa using h

/-- C6: an error frame forces isLoading false, leaves the displayed
result unchanged, surfaces a provided nonempty message verbatim, falls
back to the default string when the message is missing, and never leaves
an empty error string. -/
theorem c6_error_frame (s : UIState) (m : Option String) :
    (step s (InboundEvent.error m)).isLoading = false ∧
    (step s (InboundEvent.error m)).result = s.result ∧
    (∀ msg : String, m = some msg → msg ≠ "" →
      (step s (InboundEvent.error m)).error = msg) ∧
    (m = none → (step s (InboundEvent.error m)).error = "An error occurred") ∧
    (step s (InboundEvent.error m)).error ≠ "" := by
  refine ⟨rfl, rfl, ?_, ?_, ?_⟩
  · intro msg hm hne
    subst hm
    simp [step, orDefault, hne]
  · intro hm
    subst hm
    rfl
  · cases m with
    | none => simp [step, orDefault]
    | some msg =>
      by_cases hne : msg = ""
      · simp [step, orDefault, hne]
      · simp [step, orDefault, hne]

/-- C6 witness: a frame carrying the message "boom" surfaces it while the
previous result stays on screen. -/
theorem c6_error_frame_witness :
    (step { isConnected := true, isLoading := true, result := "kept", error := "" }
      (InboundEvent.error (some "boom"))).error = "boom" ∧
    (step { isConnected := true, isLoading := true, result := "kept", error := "" }
      (InboundEvent.error (some "boom"))).result = "kept" :=
  ⟨(c6_error_frame
      { isConnected := true, isLoading := true, result := "kept", error := "" }
      (some "boom")).2.2.1 "boom" rfl (by decide),
   (c6_error_frame
      { isConnected := true, isLoading := true, result := "kept", error := "" }
      (some "boom")).2.1⟩

/-- C7: the sequence start, a 50-character fragment starting with
"Tool Calls: ", a 150-character fragment starting with the Results
heading, then complete, ends with the result equal to the second
fragment and isLoading false. -/
theorem c7_event_sequence (s : UIState) (f1 f2 r1 r2 : String)
    (h1 : f1 = "Tool Calls: " ++ r1) (h1l : f1.length = 50)
    (h2 : f2 = "## Results\n" ++ r2) (h2l : f2.length = 150) :
    (foldEvents s
      [InboundEvent.start, InboundEvent.stream f1,
       InboundEvent.stream f2, InboundEvent.complete]).result = f2 ∧
    (foldEvents s
      [InboundEvent.start, InboundEvent.stream f1,
       InboundEvent.stream f2, InboundEvent.complete]).isLoading = false := by
  have hf2 : isFinalResponse f2 = true := by
    have hsub : strIncludes f2 "## " = true := by
      have hsplit : ("## " : String) ++ "Results\n" = "## Results\n" := by decide
      have : f2 = "## " ++ ("Results\n" ++ r2) := by
        rw [h2, ← hsplit, String.append_assoc]
      rw [this]
      exact strIncludes_append_left "## " ("Results\n" ++ r2)
    unfold isFinalResponse
    simp [hsub]
  by_cases hf1 : isFinalResponse f1
  · simp [foldEvents, List.foldl, step, hf1, hf2]
  · simp [foldEvents, List.foldl, step, hf1, hf2]

/-- C7 witness: concrete 50-character and 150-character fragments run
through the whole sequence from the initial state. -/
theorem c7_event_sequence_witness :
    (foldEvents { isConnected := true, isLoading := false, result := "", error := "" }
      [InboundEvent.start,
       InboundEvent.stream ("Tool Calls: " ++ String.mk (List.replicate 38 'x')),
       InboundEvent.stream ("## Results\n" ++ String.mk (List.replicate 139 'y')),
       InboundEvent.complete]).result =
      "## Results\n" ++ String.mk (List.replicate 139 'y') ∧
    (foldEvents { isConnected := true, isLoading := false, result := "", error := "" }
      [InboundEvent.start,
       InboundEvent.stream ("Tool Calls: " ++ String.mk (List.replicate 38 'x')),
       InboundEvent.stream ("## Results\n" ++ String.mk (List.replicate 139 'y')),
       InboundEvent.complete]).isLoading = false :=
  c7_event_sequence
    { isConnected := true, isLoading := false, result := "", error := "" }
    ("Tool Calls: " ++ String.mk (List.replicate 38 'x'))
    ("## Results\n" ++ String.mk (List.replicate 139 'y'))
    (String.mk (List.replicate 38 'x'))
    (String.mk (List.replicate 139 'y'))
    rfl (by decide) rfl (by decide)

/-- C8 counterexample: starting from a state whose error string is
"boom", a start frame leaves the error string untouched, so it is not
cleared back to empty as the claim states. -/
theorem c8_counterexample_error_not_cleared :
    (step { isConnected := true, isLoading := false, result := "old", error := "boom" }
      InboundEvent.start).error = "boom" ∧
    (step { isConnected := true, isLoading := false, result := "old", error := "boom" }
      InboundEvent.start).error ≠ "" := by
  exact ⟨rfl, by decide⟩

/-- C8 amended: a start frame resets the result to the empty string and
sets isLoading to true; the error string, like the connection flag, is
left unchanged (the handler only clears the error when the channel
opens). -/
theorem c8_start_resets (s : UIState) :
    step s InboundEvent.start =
      { s with result := "", isLoading := true } := rfl

/-- C9: submission is gated on the connection and loading flags: whenever
the state is disconnected or already loading, invoking submission sends
nothing over the channel. -/
theorem c9_submit_gate (s : UIState) (fd : EventFormData)
    (h : s.isConnected = false ∨ s.isLoading = true) :
    handleSubmit s fd = none := by
  rcases h with h | h
  · simp [handleSubmit, h]
  · simp [handleSubmit, h]

/-- C9 witness: a loading state drops a submission of the Berlin form. -/
theorem c9_submit_gate_witness :
    handleSubmit { isConnected := true, isLoading := true, result := "", error := "" }
      { location := "Berlin", dateRange := none, vertical := "Fintech",
        companies := "", additionalInfo := "" } = none :=
  c9_submit_gate
    { isConnected := true, isLoading := true, result := "", error := "" }
    { location := "Berlin", dateRange := none, vertical := "Fintech",
      companies := "", additionalInfo := "" }
    (Or.inr rfl)

/-- C10: an error frame whose message is present but empty yields the
default error string, exactly as an absent message does. -/
theorem c10_empty_message_default (s : UIState) :
    (step s (InboundEvent.error (some ""))).error = "An error occurred" ∧
    (step s (InboundEvent.error (some ""))).error =
      (step s (InboundEvent.error none)).error := ⟨rfl, rfl⟩
